import Mathlib

/-!
Verification development for the Job_Hunter_AI ingest-to-decision core.

The Python sources under `src/core` are shallowly embedded: each SQLite
statement that the code commits on its own becomes one Lean state-transformer
on a `JobRow`, the jobs table becomes a `List JobRow`, and the per-job control
flow of `filter.py`, `gl_processor.py` and `importer.py` becomes explicit
functions over those states.  Wall-clock timestamps are abstracted into a
`now : Nat` parameter, and the md5 hexdigest is modelled as an injective
tagging function (`md5Hex`): every property proved here depends only on
digest equality, never on the digest's bit-level value.
-/

namespace JobHunter

/-- Python `str.lower()`, modelled characterwise (the sources only lower
ASCII names, keywords and platform tags). -/
def pyLower (s : String) : String :=
  String.mk (s.data.map Char.toLower)

/-- Python `str.strip()`: drop leading and trailing whitespace. -/
def pyStrip (s : String) : String :=
  String.mk (((s.data.dropWhile Char.isWhitespace).reverse.dropWhile Char.isWhitespace).reverse)

/-- One row of the `jobs` table, mirroring the schema created by
`Database.init_schema` and the `Job` dataclass in `src/core/database.py`.
Timestamps are modelled as `Option Nat` (None vs a commit time). -/
structure JobRow where
  id : Nat
  external_id : Option String
  url_hash : String
  fuzzy_hash : Option String
  platform : String
  url : String
  title : String
  company : String
  location : Option String
  salary_min : Option Nat
  salary_max : Option Nat
  salary_currency : String
  remote_type : Option String
  visa_sponsorship : Option Bool
  easy_apply : Bool
  jd_markdown : Option String
  jd_raw : Option String
  match_score : Option ℚ
  match_reasoning : Option String
  key_requirements : Option (List String)
  red_flags : Option (List String)
  status : String
  decision_type : Option String
  source : String
  source_priority : Nat
  is_processed : Bool
  scraped_at : Option Nat
  filtered_at : Option Nat
  decided_at : Option Nat
  applied_at : Option Nat
deriving Repr, DecidableEq

/-- `Database.update_job_status`: one UPDATE statement (one commit).  It always
writes both `status` and `decision_type` (the latter from its argument, which
callers may omit, i.e. pass `none`), and advances the timestamp matched to the
target status. -/
def update_job_status (j : JobRow) (status : String) (decision_type : Option String)
    (now : Nat) : JobRow :=
  let j1 := { j with status := status, decision_type := decision_type }
  if status = "filtered" then { j1 with filtered_at := some now }
  else if status = "approved" ∨ status = "rejected" ∨ status = "skipped" then
    { j1 with decided_at := some now }
  else if status = "applied" then { j1 with applied_at := some now }
  else j1

/-- `Database.update_job_filter_results`: one UPDATE statement (one commit)
that writes the scoring columns, sets `filtered_at`, and sets
`status = 'filtered'` — all in the same statement. -/
def update_job_filter_results (j : JobRow) (score : ℚ) (reasoning : String)
    (requirements : List String) (red_flags : List String) (now : Nat) : JobRow :=
  { j with
    match_score := some score
    match_reasoning := some reasoning
    key_requirements := some requirements
    red_flags := some red_flags
    filtered_at := some now
    status := "filtered" }

/-- The raw `UPDATE jobs SET is_processed = 1` statement issued by
`GLMProcessor._update_job_with_score` and `GLMProcessor._mark_as_duplicate`
(one commit). -/
def set_is_processed (j : JobRow) : JobRow :=
  { j with is_processed := true }

/-- The built-in reject keyword list `DEFAULT_REJECT_KEYWORDS` of
`src/core/filter.py`. -/
def DEFAULT_REJECT_KEYWORDS : List String :=
  [ "security clearance"
  , "clearance required"
  , "secret clearance"
  , "ts/sci"
  , "top secret"
  , "us citizen only"
  , "us citizens only"
  , "must be a us citizen"
  , "permanent resident required"
  , "no sponsorship"
  , "not able to sponsor"
  , "unable to sponsor"
  , "must be authorized to work without sponsorship"
  , "without visa sponsorship"
  , "no visa sponsorship"
  , "sponsorship not available"
  , "cannot sponsor"
  , "will not sponsor"
  , "w2 through our vendor"
  , "contract to hire"
  , "corp to corp"
  , "c2c position"
  , "third party"
  , "staffing agency" ]

/-- `PreFilter.__init__`: lowercase the user keywords, then append each default
keyword that is not already in the list, preserving order. -/
def build_reject_keywords (user_keywords : List String) : List String :=
  let base := user_keywords.map pyLower
  DEFAULT_REJECT_KEYWORDS.foldl
    (fun acc kw => if acc.contains kw then acc else acc ++ [kw]) base

/-- `leadsWith needle hay`: `needle` is an initial segment of `hay`. -/
def leadsWith : List Char → List Char → Bool
  | [], _ => true
  | _ :: _, [] => false
  | a :: as, b :: bs => a = b && leadsWith as bs

/-- `occursIn needle hay`: `needle` occurs contiguously somewhere in `hay`. -/
def occursIn (needle : List Char) : List Char → Bool
  | [] => leadsWith needle []
  | c :: t => leadsWith needle (c :: t) || occursIn needle t

/-- Python's substring test `needle in hay`. -/
def strContains (hay needle : String) : Bool :=
  occursIn needle.data hay.data

/-- `PreFilter.should_reject`: company blacklist first, then the first reject
keyword found in the lowered `jd_markdown`.  Returns the reject reason, or
`none` to pass.  (Python returns `(bool, reason)`.) -/
def should_reject (blacklisted_companies reject_keywords : List String)
    (j : JobRow) : Option String :=
  if j.company ≠ "" ∧ blacklisted_companies.contains (pyLower j.company) then
    some ("Blacklisted company: " ++ j.company)
  else
    let jd_lower := pyLower (j.jd_markdown.getD "")
    reject_keywords.findSome? fun kw =>
      if strContains jd_lower kw then
        some ("Reject keyword found: \x27" ++ kw ++ "\x27")
      else none

/-- The `FilterResult` produced by `GLMClient.filter_job` (score already on the
0.0–1.0 scale). -/
structure FilterResultR where
  score : ℚ
  reasoning : String
  key_requirements : List String
  red_flags : List String
deriving Repr, DecidableEq

/-- `JobFilterService._update_job_with_result`: scoring columns first
(`update_job_filter_results`), then the score-derived status
(`update_job_status`). -/
def update_job_with_result (j : JobRow) (r : FilterResultR) (now : Nat) : JobRow :=
  let std :=
    if r.score ≥ 85 / 100 then ("matched", some "auto")
    else if r.score ≥ 60 / 100 then ("matched", some "manual")
    else ("rejected", (none : Option String))
  update_job_status
    (update_job_filter_results j r.score r.reasoning r.key_requirements r.red_flags now)
    std.1 std.2 now

/-- `JobFilterService._filter_single_job`.  Returns the persisted row, the
number of provider calls issued for this job, and whether the job errored
(an `Option FilterResultR` of `none` models `glm.filter_job` raising).
On the pre-filter reject path the code calls `update_job_status('rejected')`
FIRST and `update_job_filter_results` (which sets `status='filtered'`)
SECOND. -/
def filter_single_job (blacklisted_companies reject_keywords : List String)
    (j : JobRow) (llm : Option FilterResultR) (now : Nat) : JobRow × Nat × Bool :=
  match should_reject blacklisted_companies reject_keywords j with
  | some reason =>
      let j1 := update_job_status j "rejected" none now
      let j2 := update_job_filter_results j1 0 ("Pre-filter: " ++ reason) [] [reason] now
      (j2, 0, false)
  | none =>
      match llm with
      | none => (j, 1, true)
      | some r => (update_job_with_result j r now, 1, false)

/-- The fields of the parsed GLM JSON used by
`GLMProcessor._score_job_with_glm` (`data.get("score", 0)`,
`data.get("reasoning", ...)`, `data.get("tier", "low")`); an absent key is
`none`. -/
structure GLMScoreData where
  score : Option Int
  reasoning : Option String
  tier : Option String
deriving Repr, DecidableEq

/-- The value extraction of `GLMProcessor._score_job_with_glm` after
`parse_json_response` succeeds: `(score, reasoning, tier)` with the dict
defaults of the source. -/
def score_job_with_glm (data : GLMScoreData) : Int × String × String :=
  (data.score.getD 0, data.reasoning.getD "No reasoning provided", data.tier.getD "low")

/-- The sequence of separately committed store states produced by
`GLMProcessor._update_job_with_score` for one job, in order: the initial row,
then the state after each of the three committed statements
(`update_job_filter_results`, `update_job_status`, `SET is_processed = 1`).
The status/decision pair is derived from the numeric `score`. -/
def update_job_with_score_states (j : JobRow) (score : Int) (reasoning : String)
    (now : Nat) : List JobRow :=
  let match_score : ℚ := (score : ℚ) / 100
  let std :=
    if score ≥ 85 then ("matched", some "auto")
    else if score ≥ 60 then ("matched", some "manual")
    else ("rejected", (none : Option String))
  let s1 := update_job_filter_results j match_score reasoning [] [] now
  let s2 := update_job_status s1 std.1 std.2 now
  let s3 := set_is_processed s2
  [j, s1, s2, s3]

/-- The final row written by `GLMProcessor._update_job_with_score`. -/
def update_job_with_score (j : JobRow) (score : Int) (reasoning : String)
    (now : Nat) : JobRow :=
  (update_job_with_score_states j score reasoning now).getLastD j

/-- `GLMProcessor._mark_as_duplicate`: `update_job_status('rejected')` first,
then `update_job_filter_results` (which sets `status='filtered'` again), then
`SET is_processed = 1`. -/
def mark_as_duplicate (j : JobRow) (similar_job_id : Nat) (now : Nat) : JobRow :=
  let j1 := update_job_status j "rejected" none now
  let j2 := update_job_filter_results j1 0
    ("Semantic duplicate of job #" ++ toString similar_job_id) [] ["Duplicate job posting"] now
  set_is_processed j2

/-- The observable store states of `GLMProcessor._mark_as_duplicate`, one per
committed statement (initial row included). -/
def mark_as_duplicate_states (j : JobRow) (similar_job_id : Nat) (now : Nat) :
    List JobRow :=
  let j1 := update_job_status j "rejected" none now
  let j2 := update_job_filter_results j1 0
    ("Semantic duplicate of job #" ++ toString similar_job_id) [] ["Duplicate job posting"] now
  [j, j1, j2, set_is_processed j2]

/-- `ProcessorStats` of `src/core/gl_processor.py` (the final `cost_usd`
field is set once at the end of a run from the provider totals and is carried
unchanged here). -/
structure ProcessorStats where
  total_processed : Nat
  tier1_high_match : Nat
  tier2_medium_match : Nat
  tier3_low_match : Nat
  resumes_generated : Nat
  semantic_duplicates_found : Nat
  errors : Nat
  cost_usd : ℚ
deriving Repr, DecidableEq

/-- The all-zero `ProcessorStats()` a run starts from. -/
def stats0 : ProcessorStats :=
  ⟨0, 0, 0, 0, 0, 0, 0, 0⟩

/-- The outcome of one job inside `GLMProcessor._process_single_job`:
either `_check_semantic_duplicate` reported a same-company duplicate,
or the provider call and JSON parse succeeded with `data`,
or an exception was raised somewhere in the job (caught by the handler that
only increments `errors`). -/
inductive JobOutcome where
  | semanticDup (similar_job_id : Nat)
  | scored (data : GLMScoreData)
  | failed
deriving Repr, DecidableEq

/-- Provider calls issued for one job: the duplicate path returns before
`_score_job_with_glm`, so it issues none; a scored job issues exactly one; a
failed job fails during or after its single call. -/
def llm_calls_for : JobOutcome → Nat
  | .semanticDup _ => 0
  | .scored _ => 1
  | .failed => 1

/-- `GLMProcessor._process_single_job`: the per-job decision flow.  Returns
the persisted row and the updated stats.  On the scored path the tier
DISPATCH (`if tier == "high" ... elif tier == "medium" ... else`) uses the
`tier` string from the LLM JSON, while `_update_job_with_score` derives the
persisted status from the numeric score; a successful tier-1 resume
(`_generate_resume_for_tier1`) additionally calls
`update_job_status(job.id, "matched", "auto")`. -/
def process_single_job (enable_tier1_resume resume_ok : Bool) (j : JobRow)
    (outcome : JobOutcome) (st : ProcessorStats) (now : Nat) : JobRow × ProcessorStats :=
  match outcome with
  | .semanticDup sid =>
      (mark_as_duplicate j sid now,
       { st with
          semantic_duplicates_found := st.semantic_duplicates_found + 1
          total_processed := st.total_processed + 1 })
  | .scored data =>
      let srt := score_job_with_glm data
      let score := srt.1
      let tier := srt.2.2
      let j1 := update_job_with_score j score srt.2.1 now
      let jst :=
        if tier = "high" then
          if enable_tier1_resume ∧ resume_ok then
            (update_job_status j1 "matched" (some "auto") now,
             { st with
                tier1_high_match := st.tier1_high_match + 1
                resumes_generated := st.resumes_generated + 1 })
          else
            (j1, { st with tier1_high_match := st.tier1_high_match + 1 })
        else if tier = "medium" then
          (j1, { st with tier2_medium_match := st.tier2_medium_match + 1 })
        else
          (j1, { st with tier3_low_match := st.tier3_low_match + 1 })
      (jst.1, { jst.2 with total_processed := jst.2.total_processed + 1 })
  | .failed =>
      (j, { st with errors := st.errors + 1 })

/-- `GLMProcessor.process_unfiltered_jobs` restricted to what the claims
observe: fold the per-job flow over the batch (window boundaries and the 1 s
pauses do not change rows or counters). -/
def process_unfiltered_jobs (enable_tier1_resume resume_ok : Bool)
    (jobs : List (JobRow × JobOutcome)) (st : ProcessorStats) (now : Nat) :
    List JobRow × ProcessorStats :=
  match jobs with
  | [] => ([], st)
  | (j, o) :: rest =>
      let r := process_single_job enable_tier1_resume resume_ok j o st now
      let rec' := process_unfiltered_jobs enable_tier1_resume resume_ok rest r.2 now
      (r.1 :: rec'.1, rec'.2)

/-- Model of `hashlib.md5(s.encode()).hexdigest()`.  Every claim below depends
only on equality of digests (duplicate detection), so the digest is modelled
as an injective tagging function rather than the md5 bit mixer. -/
def md5Hex (s : String) : String :=
  "md5(" ++ s ++ ")"

/-- `generate_fuzzy_hash` of `src/core/importer.py`: digest of
`company.lower().strip() + title.lower().strip()` (raw concatenation, no
separator). -/
def generate_fuzzy_hash (company title : String) : String :=
  md5Hex (pyStrip (pyLower company) ++ pyStrip (pyLower title))

/-- `determine_source_priority` of `src/core/importer.py`. -/
def determine_source_priority (source : String) : Nat :=
  let source_lower := pyLower source
  if ["greenhouse", "lever", "ashby", "workable", "indeed", "wellfound"].contains source_lower
  then 1
  else if ["linkedin", "glassdoor"].contains source_lower then 2
  else 3

/-- Digits of a decimal literal folded to a `Nat`. -/
def digitsToNat (ds : List Char) : Nat :=
  ds.foldl (fun n c => 10 * n + (c.toNat - 48)) 0

/-- Greedy match of the regex fragment `\d+\.?\d*` at the head of the input:
integer digits (at least one), an optional dot, fraction digits.  Returns the
two digit groups and the rest of the input.  For this fragment followed by
`k?`, `\s*` and a literal, greedy matching without backtracking coincides
with Python `re` semantics. -/
def parseNumber (cs : List Char) : Option (List Char × List Char × List Char) :=
  let intDigits := cs.takeWhile Char.isDigit
  if intDigits.isEmpty then none
  else
    match cs.dropWhile Char.isDigit with
    | '.' :: rest =>
        some (intDigits, rest.takeWhile Char.isDigit, rest.dropWhile Char.isDigit)
    | rest => some (intDigits, [], rest)

/-- Skip an optional literal `k` (the regex fragment `k?`). -/
def skipK : List Char → List Char
  | 'k' :: rest => rest
  | cs => cs

/-- Skip `\s*`. -/
def skipSpaces (cs : List Char) : List Char :=
  cs.dropWhile Char.isWhitespace

/-- Match `(\d+\.?\d*)k?\s*-\s*(\d+\.?\d*)k?` anchored at the head. -/
def rangeMatchAt (cs : List Char) : Option ((List Char × List Char) × (List Char × List Char)) :=
  match parseNumber cs with
  | none => none
  | some (d1, f1, r1) =>
      match skipSpaces (skipK r1) with
      | '-' :: r2 =>
          match parseNumber (skipSpaces r2) with
          | none => none
          | some (d2, f2, _) => some ((d1, f1), (d2, f2))
      | _ => none

/-- `re.search` for the range pattern: try each start position left to
right. -/
def searchRange : List Char → Option ((List Char × List Char) × (List Char × List Char))
  | [] => rangeMatchAt []
  | c :: t =>
      match rangeMatchAt (c :: t) with
      | some r => some r
      | none => searchRange t

/-- Match `up\s+to\s+(\d+\.?\d*)k?` anchored at the head. -/
def upToMatchAt (cs : List Char) : Option (List Char × List Char) :=
  match cs with
  | 'u' :: 'p' :: r1 =>
      if (r1.takeWhile Char.isWhitespace).isEmpty then none
      else
        match r1.dropWhile Char.isWhitespace with
        | 't' :: 'o' :: r2 =>
            if (r2.takeWhile Char.isWhitespace).isEmpty then none
            else
              match parseNumber (r2.dropWhile Char.isWhitespace) with
              | none => none
              | some (d, f, _) => some (d, f)
        | _ => none
  | _ => none

/-- `re.search` for the `up to N[k]` pattern. -/
def searchUpTo : List Char → Option (List Char × List Char)
  | [] => upToMatchAt []
  | c :: t =>
      match upToMatchAt (c :: t) with
      | some r => some r
      | none => searchUpTo t

/-- Match `(\d+\.?\d*)k?\s*\+` anchored at the head. -/
def plusMatchAt (cs : List Char) : Option (List Char × List Char) :=
  match parseNumber cs with
  | none => none
  | some (d, f, r1) =>
      match skipSpaces (skipK r1) with
      | '+' :: _ => some (d, f)
      | _ => none

/-- `re.search` for the `N[k]+` pattern. -/
def searchPlus : List Char → Option (List Char × List Char)
  | [] => plusMatchAt []
  | c :: t =>
      match plusMatchAt (c :: t) with
      | some r => some r
      | none => searchPlus t

/-- `re.search` for a bare `(\d+\.?\d*)k?` number. -/
def searchSingle : List Char → Option (List Char × List Char)
  | [] => none
  | c :: t =>
      match parseNumber (c :: t) with
      | some (d, f, _) => some (d, f)
      | none => searchSingle t

/-- `int(float("d.f") * (1000 if k else 1))` for the captured digit groups:
Nat division by the fraction scale realises the truncation of `int()` (the
values involved are exact in binary64, so the float detour is lossless). -/
def numValue (intDs fracDs : List Char) (hasK : Bool) : Nat :=
  let n := digitsToNat intDs
  let f := digitsToNat fracDs
  let p := 10 ^ fracDs.length
  if hasK then 1000 * (n * p + f) / p else (n * p + f) / p

/-- `parse_salary` of `src/core/importer.py`: normalize (lower, strip,
replace every `$` and `,` with the empty string — i.e. delete those
characters), then try the four regex patterns in source order; any `k` in
the normalized text multiplies by 1000. -/
def parse_salary (salary_str : Option String) : Option Nat × Option Nat :=
  match salary_str with
  | none => (none, none)
  | some s =>
      if s = "" then (none, none)
      else
        let cs := ((pyStrip (pyLower s)).data.filter fun c => ¬ (c = '$' ∨ c = ','))
        let hasK := cs.contains 'k'
        match searchRange cs with
        | some ((d1, f1), (d2, f2)) =>
            (some (numValue d1 f1 hasK), some (numValue d2 f2 hasK))
        | none =>
        match searchUpTo cs with
        | some (d, f) => (none, some (numValue d f hasK))
        | none =>
        match searchPlus cs with
        | some (d, f) => (some (numValue d f hasK), none)
        | none =>
        match searchSingle cs with
        | some (d, f) =>
            let v := numValue d f hasK
            (some v, some v)
        | none => (none, none)

/-- One raw source record as read from a scraped JSON file: each key may be
absent (`none`). -/
structure RawJob where
  title : Option String
  company : Option String
  url : Option String
  description : Option String
  salary : Option String
  posted_date : Option String
  location : Option String
  remote_type : Option String
  visa_sponsorship : Option Bool
  easy_apply : Option Bool
  external_id : Option String
deriving Repr, DecidableEq

/-- The dict returned by `AntigravityImporter._normalize_job_data`.  Note that
it carries the description under `jd_markdown`/`jd_raw` and has NO
`description` key.  The ISO parse of `posted_date` (with its fall-back to the
current time) is abstracted into `scraped_at = now`; no claim depends on it. -/
structure NormalizedJob where
  platform : String
  url : String
  fuzzy_hash : String
  external_id : Option String
  title : String
  company : String
  location : Option String
  salary_min : Option Nat
  salary_max : Option Nat
  salary_currency : String
  remote_type : Option String
  visa_sponsorship : Option Bool
  easy_apply : Bool
  jd_markdown : Option String
  jd_raw : Option String
  source : String
  source_priority : Nat
  is_processed : Bool
  status : String
  scraped_at : Nat
deriving Repr, DecidableEq

/-- `AntigravityImporter._normalize_job_data`.  `title`/`company` fall back to
sentinel strings only when the KEY is absent (an empty string present under
the key is kept as is); a missing or empty `url` raises
`ValueError("Job URL is required")`, modelled as `Except.error`. -/
def normalize_job_data (raw : RawJob) (source : String) (now : Nat) :
    Except String NormalizedJob :=
  let title := raw.title.getD "Unknown Title"
  let company := raw.company.getD "Unknown Company"
  let url := raw.url.getD ""
  if url = "" then .error "Job URL is required"
  else
    let sal := parse_salary raw.salary
    .ok
      { platform := source
        url := url
        fuzzy_hash := generate_fuzzy_hash company title
        external_id := raw.external_id
        title := title
        company := company
        location := raw.location
        salary_min := sal.1
        salary_max := sal.2
        salary_currency := "USD"
        remote_type := raw.remote_type
        visa_sponsorship := raw.visa_sponsorship
        easy_apply := raw.easy_apply.getD false
        jd_markdown := raw.description
        jd_raw := raw.description
        source := source
        source_priority := determine_source_priority source
        is_processed := false
        status := "new"
        scraped_at := now }

/-- The action decided by `resolve_duplicate` in `src/core/importer.py`. -/
inductive DupAction where
  | skip
  | update_full
  | update_description (jd : String)
deriving Repr, DecidableEq

/-- `resolve_duplicate(existing_job, new_job)`.  The new job's priority and
its value under the dict key `description` are passed explicitly:
`new_job.get('description', '')` yields `''` when the key is absent — which
is always the case for the dicts produced by `_normalize_job_data`. -/
def resolve_duplicate (existing : JobRow) (new_priority : Nat)
    (new_description : Option String) : DupAction :=
  if new_priority < existing.source_priority then .update_full
  else if new_priority = existing.source_priority then
    let existing_desc := existing.jd_raw.getD ""
    let new_desc := new_description.getD ""
    if existing_desc.length < new_desc.length then .update_description new_desc
    else .skip
  else .skip

/-- `Database.insert_job`: computes `url_hash` from the inserted url, assigns
the next autoincrement id, and appends the row. -/
def insert_job (db : List JobRow) (nj : NormalizedJob) : List JobRow :=
  db ++
    [{ id := db.length + 1
       external_id := nj.external_id
       url_hash := md5Hex nj.url
       fuzzy_hash := some nj.fuzzy_hash
       platform := nj.platform
       url := nj.url
       title := nj.title
       company := nj.company
       location := nj.location
       salary_min := nj.salary_min
       salary_max := nj.salary_max
       salary_currency := nj.salary_currency
       remote_type := nj.remote_type
       visa_sponsorship := nj.visa_sponsorship
       easy_apply := nj.easy_apply
       jd_markdown := nj.jd_markdown
       jd_raw := nj.jd_raw
       match_score := none
       match_reasoning := none
       key_requirements := none
       red_flags := none
       status := nj.status
       decision_type := none
       source := nj.source
       source_priority := nj.source_priority
       is_processed := nj.is_processed
       scraped_at := some nj.scraped_at
       filtered_at := none
       decided_at := none
       applied_at := none }]

/-- The row-level effect of `AntigravityImporter._update_job` (the
`update_full` path): replaces the descriptive columns including `url`,
`source`, `source_priority` and `fuzzy_hash` — but NOT `url_hash` — and
leaves the scoring and workflow columns untouched. -/
def update_job_row (j : JobRow) (nj : NormalizedJob) : JobRow :=
  { j with
    title := nj.title
    company := nj.company
    location := nj.location
    salary_min := nj.salary_min
    salary_max := nj.salary_max
    salary_currency := nj.salary_currency
    remote_type := nj.remote_type
    visa_sponsorship := nj.visa_sponsorship
    easy_apply := nj.easy_apply
    jd_markdown := nj.jd_markdown
    jd_raw := nj.jd_raw
    source := nj.source
    source_priority := nj.source_priority
    url := nj.url
    fuzzy_hash := some nj.fuzzy_hash }

/-- `AntigravityImporter._update_job` applied to the jobs table. -/
def update_job (db : List JobRow) (job_id : Nat) (nj : NormalizedJob) : List JobRow :=
  db.map fun j => if j.id = job_id then update_job_row j nj else j

/-- `AntigravityImporter._update_job_description`: the `update_description`
path writes the same text into `jd_markdown` and `jd_raw`. -/
def update_job_description (db : List JobRow) (job_id : Nat) (jd : String) : List JobRow :=
  db.map fun j =>
    if j.id = job_id then { j with jd_markdown := some jd, jd_raw := some jd } else j

/-- `AntigravityImporter._get_job_by_url_hash`. -/
def get_job_by_url_hash (db : List JobRow) (url_hash : String) : Option JobRow :=
  db.find? fun j => j.url_hash = url_hash

/-- `AntigravityImporter._get_job_by_fuzzy_hash`. -/
def get_job_by_fuzzy_hash (db : List JobRow) (fuzzy_hash : String) : Option JobRow :=
  db.find? fun j => j.fuzzy_hash = some fuzzy_hash

/-- The global counters of `AntigravityImporter.stats` (the `by_source`
breakdown mirrors these per source tag and is not separately modelled). -/
structure ImportStats where
  total_jobs : Nat
  new_jobs : Nat
  url_duplicates : Nat
  fuzzy_duplicates_skipped : Nat
  fuzzy_duplicates_updated : Nat
deriving Repr, DecidableEq

/-- A fresh importer's zeroed counters. -/
def importStats0 : ImportStats :=
  ⟨0, 0, 0, 0, 0⟩

/-- `AntigravityImporter._process_job`: counts the record, normalizes it (an
error here propagates to the caller with the counters as they stand), then
URL-exact dedup, then fuzzy dedup with `resolve_duplicate` — to which it
hands the normalized dict, which has no `description` key (`none`) — and
otherwise inserts.  Returns the new table, the new counters, and the error
that escaped, if any. -/
def process_job (db : List JobRow) (st : ImportStats) (raw : RawJob)
    (source : String) (now : Nat) : List JobRow × ImportStats × Option String :=
  let st := { st with total_jobs := st.total_jobs + 1 }
  match normalize_job_data raw source now with
  | .error e => (db, st, some e)
  | .ok nj =>
      let url_hash := md5Hex nj.url
      match get_job_by_url_hash db url_hash with
      | some _ => (db, { st with url_duplicates := st.url_duplicates + 1 }, none)
      | none =>
          match get_job_by_fuzzy_hash db nj.fuzzy_hash with
          | some existing =>
              match resolve_duplicate existing nj.source_priority none with
              | .skip =>
                  (db, { st with fuzzy_duplicates_skipped := st.fuzzy_duplicates_skipped + 1 },
                   none)
              | .update_full =>
                  (update_job db existing.id nj,
                   { st with fuzzy_duplicates_updated := st.fuzzy_duplicates_updated + 1 },
                   none)
              | .update_description jd =>
                  (update_job_description db existing.id jd,
                   { st with fuzzy_duplicates_updated := st.fuzzy_duplicates_updated + 1 },
                   none)
          | none =>
              (insert_job db nj, { st with new_jobs := st.new_jobs + 1 }, none)

/-- `AntigravityImporter.import_json_file` over an already-decoded record
list: processes records in order; an exception from `_process_job` (a missing
url) propagates and aborts the remaining records of the same file. -/
def import_json_file (raws : List RawJob) (db : List JobRow) (st : ImportStats)
    (source : String) (now : Nat) : List JobRow × ImportStats × Option String :=
  match raws with
  | [] => (db, st, none)
  | r :: rest =>
      match process_job db st r source now with
      | (db1, st1, some e) => (db1, st1, some e)
      | (db1, st1, none) => import_json_file rest db1 st1 source now

/-- The raw outcome of one HTTP attempt inside `GLMClient.chat`:
a 2xx response with content, a 429, a non-429 `HTTPStatusError`, or an
`httpx.RequestError` (whose subclass `httpx.TimeoutException` is flagged by
`isTimeout`). -/
inductive RawAttempt where
  | ok (content : String)
  | status429
  | httpStatusError
  | requestError (isTimeout : Bool)
deriving Repr, DecidableEq

/-- The error kinds of `src/core/llm/base.py` that a chat caller can see. -/
inductive ChatError where
  | rateLimited
  | apiError
  | invalidResponse
deriving Repr, DecidableEq

/-- The body of `GLMClient.chat` for one attempt: a 429 raises
`RateLimitError` (not caught by the httpx handlers); an `HTTPStatusError` is
wrapped into `APIError`; any `RequestError` — INCLUDING `TimeoutException`,
which subclasses it — is caught by `except httpx.RequestError` and wrapped
into `APIError` before the retry decorator can observe it. -/
def attempt_result : RawAttempt → Except ChatError String
  | .ok c => .ok c
  | .status429 => .error .rateLimited
  | .httpStatusError => .error .apiError
  | .requestError _ => .error .apiError

/-- The predicate `retry_if_exception_type((RateLimitError,
httpx.TimeoutException))` of the `@retry` decorator, applied to the
exceptions that actually escape an attempt: `httpx.TimeoutException` never
does (it has been wrapped into `APIError`), so only `RateLimitError`
triggers a retry. -/
def tenacity_should_retry : ChatError → Bool
  | .rateLimited => true
  | .apiError => false
  | .invalidResponse => false

/-- The sleep before attempt `n + 1` under
`wait_exponential(multiplier=1, min=2, max=30)`: `clamp(1 * 2^n, 2, 30)`
seconds after the `n`-th failed attempt. -/
def backoff_wait (attempt_number : Nat) : Nat :=
  min 30 (max 2 (2 ^ attempt_number))

/-- `GLMClient.chat` under `@retry(stop=stop_after_attempt(3), ...)`:
`attempts` supplies the raw outcome of each successive attempt and
`attempt_number` counts from 1.  A retryable error with attempts left
recurses; otherwise the error surfaces.  (An empty outcome list cannot be
reached from a call with `attempt_number = 1` and three outcomes
available; it surfaces an `apiError`.) -/
def chat_with_retry (attempts : List RawAttempt) (attempt_number : Nat) :
    Except ChatError String :=
  match attempts with
  | [] => .error .apiError
  | a :: rest =>
      match attempt_result a with
      | .ok c => .ok c
      | .error e =>
          if tenacity_should_retry e ∧ attempt_number < 3 then
            chat_with_retry rest (attempt_number + 1)
          else .error e

/-! Shared helper lemmas about the single-statement store operations. -/

theorem update_job_status_status (j : JobRow) (st : String) (dt : Option String)
    (now : Nat) : (update_job_status j st dt now).status = st := by
  unfold update_job_status
  split_ifs <;> rfl

theorem update_job_status_decision (j : JobRow) (st : String) (dt : Option String)
    (now : Nat) : (update_job_status j st dt now).decision_type = dt := by
  unfold update_job_status
  split_ifs <;> rfl

theorem update_job_status_match_score (j : JobRow) (st : String) (dt : Option String)
    (now : Nat) : (update_job_status j st dt now).match_score = j.match_score := by
  unfold update_job_status
  split_ifs <;> rfl

theorem update_job_status_is_processed (j : JobRow) (st : String) (dt : Option String)
    (now : Nat) : (update_job_status j st dt now).is_processed = j.is_processed := by
  unfold update_job_status
  split_ifs <;> rfl

/-- C8: the salary parser maps each of the six literal inputs of scenario S1
to exactly the pair the spec states: `"$150k-200k" ↦ (150000, 200000)`,
`"$150,000-$200,000" ↦ (150000, 200000)`, `"$150k+" ↦ (150000, nil)`,
`"Up to $200k" ↦ (nil, 200000)`, `"Competitive" ↦ (nil, nil)`, and
`"£100k-150k" ↦ (100000, 150000)`. -/
theorem parse_salary_spec_literals :
    parse_salary (some "$150k-200k") = (some 150000, some 200000) ∧
    parse_salary (some "$150,000-$200,000") = (some 150000, some 200000) ∧
    parse_salary (some "$150k+") = (some 150000, none) ∧
    parse_salary (some "Up to $200k") = (none, some 200000) ∧
    parse_salary (some "Competitive") = (none, none) ∧
    parse_salary (some "£100k-150k") = (some 100000, some 150000) := by
  exact ⟨by decide, by decide, by decide, by decide, by decide, by decide⟩

/-- C10: `Database.update_job_status` unconditionally writes `decision_type`
from its argument, so every call that omits it (passes the default `None`)
resets a previously stored decision_type to null alongside the status
change. -/
theorem update_job_status_resets_decision_type (j : JobRow) (status : String)
    (now : Nat) :
    (update_job_status j status none now).decision_type = none ∧
    (update_job_status j status none now).status = status :=
  ⟨update_job_status_decision j status none now,
   update_job_status_status j status none now⟩

/-- C9 counterexample: `GLMClient.chat`, given a transport timeout on the
first attempt (or an HTTP error wrapped into APIError) and a successful
second attempt available, surfaces `apiError` without retrying — refuting
that APIError and Transport timeouts are retried. -/
theorem chat_retry_counterexample :
    chat_with_retry [RawAttempt.requestError true, RawAttempt.ok "x"] 1
      = Except.error ChatError.apiError ∧
    chat_with_retry [RawAttempt.httpStatusError, RawAttempt.ok "x"] 1
      = Except.error ChatError.apiError := by
  exact ⟨rfl, rfl⟩

/-- C9 amended: `chat` is retried with exponential backoff (waits
`clamp(2^n, 2, 30)` seconds, i.e. 2 s then 4 s, for up to 3 attempts)
exactly on RateLimited.  An `APIError` — including every transport timeout,
which the `except httpx.RequestError` handler wraps into `APIError` inside
the attempt, before the retry predicate can see it — surfaces without
retry, and InvalidResponse is never retried. -/
theorem chat_retry_amended (a : RawAttempt) (rest : List RawAttempt) (n : Nat) :
    (attempt_result a = .error .rateLimited → n < 3 →
      chat_with_retry (a :: rest) n = chat_with_retry rest (n + 1)) ∧
    (∀ e, attempt_result a = .error e → e ≠ .rateLimited →
      chat_with_retry (a :: rest) n = .error e) ∧
    (attempt_result a = .error .rateLimited → ¬ n < 3 →
      chat_with_retry (a :: rest) n = .error .rateLimited) ∧
    (∀ t : Bool, attempt_result (.requestError t) = .error .apiError) ∧
    backoff_wait 1 = 2 ∧ backoff_wait 2 = 4 := by
  have hcons : ∀ (b : RawAttempt) (l : List RawAttempt) (m : Nat),
      chat_with_retry (b :: l) m =
        match attempt_result b with
        | .ok c => .ok c
        | .error e =>
            if tenacity_should_retry e ∧ m < 3 then chat_with_retry l (m + 1)
            else .error e := fun _ _ _ => rfl
  refine ⟨?_, ?_, ?_, ?_, by decide, by decide⟩
  · intro h1 h2
    rw [hcons, h1]
    simp only [tenacity_should_retry]
    exact if_pos ⟨trivial, h2⟩
  · intro e h1 h2
    rw [hcons, h1]
    have hf : tenacity_should_retry e = false := by
      cases e
      · exact absurd rfl h2
      · rfl
      · rfl
    simp [hf]
  · intro h1 h2
    rw [hcons, h1]
    simp only [tenacity_should_retry]
    exact if_neg (fun h => h2 h.2)
  · intro t
    rfl

/-- Witness for the amended C9 theorem at a concrete rate-limited first
attempt. -/
theorem chat_retry_amended_witness :
    attempt_result RawAttempt.status429 = .error .rateLimited ∧ (1 : Nat) < 3 ∧
    chat_with_retry [RawAttempt.status429, RawAttempt.ok "y"] 1
      = chat_with_retry [RawAttempt.ok "y"] 2 :=
  ⟨rfl, by decide,
   (chat_retry_amended RawAttempt.status429 [RawAttempt.ok "y"] 1).1 rfl (by decide)⟩

/-- A freshly imported row (status `new`, unprocessed, no scoring columns)
used as a concrete fixture by several evaluations. -/
def sampleNewJob : JobRow :=
  { id := 1
    external_id := none
    url_hash := md5Hex "https://x/1"
    fuzzy_hash := some (generate_fuzzy_hash "OpenAI" "AI Engineer")
    platform := "linkedin"
    url := "https://x/1"
    title := "AI Engineer"
    company := "OpenAI"
    location := none
    salary_min := none
    salary_max := none
    salary_currency := "USD"
    remote_type := none
    visa_sponsorship := none
    easy_apply := false
    jd_markdown := some "Build AI systems"
    jd_raw := some "Build AI systems"
    match_score := none
    match_reasoning := none
    key_requirements := none
    red_flags := none
    status := "new"
    decision_type := none
    source := "linkedin"
    source_priority := 2
    is_processed := false
    scraped_at := some 1
    filtered_at := none
    decided_at := none
    applied_at := none }

/-- The scenario-S5 fixture: a new job whose description contains the default
reject keyword `security clearance`. -/
def secClearanceJob : JobRow :=
  { sampleNewJob with
    id := 2
    url := "https://x/2"
    url_hash := md5Hex "https://x/2"
    company := "Acme"
    title := "Engineer"
    fuzzy_hash := some (generate_fuzzy_hash "Acme" "Engineer")
    jd_markdown := some "This role requires an active security clearance"
    jd_raw := some "This role requires an active security clearance" }

theorem update_job_with_score_fields (j : JobRow) (score : Int) (reasoning : String)
    (now : Nat) :
    (update_job_with_score j score reasoning now).status
        = (if score ≥ 85 then "matched" else if score ≥ 60 then "matched" else "rejected") ∧
    (update_job_with_score j score reasoning now).decision_type
        = (if score ≥ 85 then some "auto" else if score ≥ 60 then some "manual" else none) ∧
    (update_job_with_score j score reasoning now).match_score = some ((score : ℚ) / 100) ∧
    (update_job_with_score j score reasoning now).match_reasoning = some reasoning ∧
    (update_job_with_score j score reasoning now).is_processed = true := by
  unfold update_job_with_score update_job_with_score_states
  dsimp only
  split_ifs <;> exact ⟨rfl, rfl, rfl, rfl, rfl⟩

/-- C1: evaluation of both reject-without-LLM paths at the spec's own
scenarios.  On the pre-filter path (S5 fixture) and on the semantic-duplicate
path, `match_score = 0.0`, the stated reasoning and red flags are written and
no provider call is issued — but the final persisted status is `"filtered"`,
not `"rejected"`: both paths call `update_job_status('rejected')` FIRST and
then `update_job_filter_results`, which overwrites `status` with
`'filtered'`.  (The pre-filter path also never sets `is_processed`.) -/
theorem reject_paths_persist_filtered_status :
    (filter_single_job [] (build_reject_keywords []) secClearanceJob
        (some ⟨9 / 10, "great", [], []⟩) 3).2.1 = 0 ∧
    (filter_single_job [] (build_reject_keywords []) secClearanceJob
        (some ⟨9 / 10, "great", [], []⟩) 3).1.match_score = some 0 ∧
    (filter_single_job [] (build_reject_keywords []) secClearanceJob
        (some ⟨9 / 10, "great", [], []⟩) 3).1.match_reasoning
      = some "Pre-filter: Reject keyword found: \x27security clearance\x27" ∧
    (filter_single_job [] (build_reject_keywords []) secClearanceJob
        (some ⟨9 / 10, "great", [], []⟩) 3).1.red_flags
      = some ["Reject keyword found: \x27security clearance\x27"] ∧
    (filter_single_job [] (build_reject_keywords []) secClearanceJob
        (some ⟨9 / 10, "great", [], []⟩) 3).1.status = "filtered" ∧
    (filter_single_job [] (build_reject_keywords []) secClearanceJob
        (some ⟨9 / 10, "great", [], []⟩) 3).1.status ≠ "rejected" ∧
    (filter_single_job [] (build_reject_keywords []) secClearanceJob
        (some ⟨9 / 10, "great", [], []⟩) 3).1.is_processed = false ∧
    llm_calls_for (JobOutcome.semanticDup 1) = 0 ∧
    (mark_as_duplicate sampleNewJob 1 4).match_score = some 0 ∧
    (mark_as_duplicate sampleNewJob 1 4).match_reasoning
      = some "Semantic duplicate of job #1" ∧
    (mark_as_duplicate sampleNewJob 1 4).red_flags = some ["Duplicate job posting"] ∧
    (mark_as_duplicate sampleNewJob 1 4).is_processed = true ∧
    (mark_as_duplicate sampleNewJob 1 4).status = "filtered" ∧
    (mark_as_duplicate sampleNewJob 1 4).status ≠ "rejected" := by
  refine ⟨by decide, by decide, by decide, by decide, by decide, by decide, by decide,
    rfl, by decide, by decide, by decide, by decide, by decide, by decide⟩

/-- C4 counterexample: processing the S6-style low-score job (score 45)
through `GLMProcessor._update_job_with_score` exposes an observable
intermediate store state — after the committed `update_job_status` statement
and before the committed `is_processed` statement — with `status = rejected`
and `is_processed = false`, which the claim says no observer can see. -/
theorem score_update_not_atomic_cex :
    ∃ s ∈ update_job_with_score_states sampleNewJob 45 "Low match" 7,
      s.status = "rejected" ∧ s.is_processed = false := by
  decide

/-- C4 amended: the multi-step update runs as separately committed
statements, not atomically.  What survives of the claim: no observable state
of either path has scoring columns written while `status = new`, because
`update_job_filter_results` writes the scoring columns and
`status = 'filtered'` in one statement.  What fails: whenever the score maps
to rejected (`score < 60`), the state between the status statement and the
mark-processed statement has `status = rejected` with
`is_processed = false`, and the duplicate path likewise exposes such a state
right after its first statement. -/
theorem score_update_observability_amended (j : JobRow) (score : Int)
    (reasoning : String) (sid : Nat) (now : Nat)
    (hstatus : j.status = "new") (hscore : j.match_score = none)
    (hproc : j.is_processed = false) :
    (∀ s ∈ update_job_with_score_states j score reasoning now,
        ¬ (s.match_score ≠ none ∧ s.status = "new")) ∧
    (score < 60 →
        ∃ s ∈ update_job_with_score_states j score reasoning now,
          s.status = "rejected" ∧ s.is_processed = false) ∧
    (∀ s ∈ mark_as_duplicate_states j sid now,
        ¬ (s.match_score ≠ none ∧ s.status = "new")) ∧
    (∃ s ∈ mark_as_duplicate_states j sid now,
        s.status = "rejected" ∧ s.is_processed = false) := by
  refine ⟨?_, ?_, ?_, ?_⟩
  · intro s hs
    dsimp only [update_job_with_score_states] at hs
    simp only [List.mem_cons, List.not_mem_nil, or_false] at hs
    rcases hs with rfl | rfl | rfl | rfl
    · simp [hscore]
    · rintro ⟨-, h2⟩
      simp [update_job_filter_results] at h2
    · rintro ⟨-, h2⟩
      rw [update_job_status_status] at h2
      split_ifs at h2 <;> simp at h2
    · rintro ⟨-, h2⟩
      simp only [set_is_processed] at h2
      rw [update_job_status_status] at h2
      split_ifs at h2 <;> simp at h2
  · intro hlt
    have h85 : ¬ score ≥ 85 := by omega
    have h60 : ¬ score ≥ 60 := by omega
    refine ⟨update_job_status
        (update_job_filter_results j ((score : ℚ) / 100) reasoning [] [] now)
        "rejected" none now, ?_, ?_, ?_⟩
    · dsimp only [update_job_with_score_states]
      rw [if_neg h85, if_neg h60]
      exact List.mem_cons_of_mem _ (List.mem_cons_of_mem _ (List.mem_cons_self _ _))
    · exact update_job_status_status _ _ _ _
    · rw [update_job_status_is_processed]
      exact hproc
  · intro s hs
    dsimp only [mark_as_duplicate_states] at hs
    simp only [List.mem_cons, List.not_mem_nil, or_false] at hs
    rcases hs with rfl | rfl | rfl | rfl
    · simp [hscore]
    · rintro ⟨h1, -⟩
      rw [update_job_status_match_score] at h1
      exact h1 hscore
    · rintro ⟨-, h2⟩
      simp [update_job_filter_results] at h2
    · rintro ⟨-, h2⟩
      simp only [set_is_processed] at h2
      simp [update_job_filter_results] at h2
  · refine ⟨update_job_status j "rejected" none now, ?_, ?_, ?_⟩
    · dsimp only [mark_as_duplicate_states]
      exact List.mem_cons_of_mem _ (List.mem_cons_self _ _)
    · exact update_job_status_status _ _ _ _
    · rw [update_job_status_is_processed]
      exact hproc

/-- Witness for the amended C4 theorem at the S6 low-score fixture. -/
theorem score_update_observability_amended_witness :
    sampleNewJob.status = "new" ∧ sampleNewJob.match_score = none ∧
    sampleNewJob.is_processed = false ∧ (45 : Int) < 60 ∧
    (∃ s ∈ update_job_with_score_states sampleNewJob 45 "Low match" 7,
        s.status = "rejected" ∧ s.is_processed = false) :=
  ⟨rfl, rfl, rfl, by decide,
   (score_update_observability_amended sampleNewJob 45 "Low match" 1 7 rfl rfl rfl).2.1
     (by decide)⟩

/-- C2 counterexample: a provider response with `score = 90` but
`tier = "low"` is persisted as `matched/auto` (status derived from the
score), yet the run counts it as tier 3 — not tier 1 — and generates no
résumé, because the counter and side-effect dispatch read the LLM's `tier`
string.  The `tier` field therefore does affect the outcome. -/
theorem tier_counters_follow_llm_tier_field_cex :
    (process_single_job true true sampleNewJob
        (JobOutcome.scored ⟨some 90, some "strong match", some "low"⟩) stats0 5).2.tier3_low_match
      = 1 ∧
    (process_single_job true true sampleNewJob
        (JobOutcome.scored ⟨some 90, some "strong match", some "low"⟩) stats0 5).2.tier1_high_match
      = 0 ∧
    (process_single_job true true sampleNewJob
        (JobOutcome.scored ⟨some 90, some "strong match", some "low"⟩) stats0 5).2.resumes_generated
      = 0 ∧
    (process_single_job true true sampleNewJob
        (JobOutcome.scored ⟨some 90, some "strong match", some "low"⟩) stats0 5).1.status
      = "matched" ∧
    (process_single_job true true sampleNewJob
        (JobOutcome.scored ⟨some 90, some "strong match", some "low"⟩) stats0 5).1.decision_type
      = some "auto" := by
  refine ⟨by decide, by decide, by decide, by decide, by decide⟩

/-- C2 amended: for every scored job, the persisted workflow status and
decision_type are derived from the numeric score (≥ 85 matched/auto,
60–84 matched/manual, else rejected/null), but the tier1/tier2/tier3
counters and the tier-1 résumé side effect dispatch on the `tier` string of
the LLM JSON (default `"low"`); moreover a successful résumé generation for
a `tier = "high"` job overwrites the job to matched/auto regardless of its
score. -/
theorem scored_job_dispatch_amended (en rok : Bool) (j : JobRow)
    (data : GLMScoreData) (st : ProcessorStats) (now : Nat) :
    (process_single_job en rok j (.scored data) st now).2.tier1_high_match
        = st.tier1_high_match + (if data.tier.getD "low" = "high" then 1 else 0) ∧
    (process_single_job en rok j (.scored data) st now).2.tier2_medium_match
        = st.tier2_medium_match
          + (if data.tier.getD "low" ≠ "high" ∧ data.tier.getD "low" = "medium" then 1 else 0) ∧
    (process_single_job en rok j (.scored data) st now).2.tier3_low_match
        = st.tier3_low_match
          + (if data.tier.getD "low" ≠ "high" ∧ data.tier.getD "low" ≠ "medium" then 1 else 0) ∧
    (process_single_job en rok j (.scored data) st now).2.resumes_generated
        = st.resumes_generated
          + (if data.tier.getD "low" = "high" ∧ en = true ∧ rok = true then 1 else 0) ∧
    (process_single_job en rok j (.scored data) st now).2.total_processed
        = st.total_processed + 1 ∧
    (process_single_job en rok j (.scored data) st now).2.errors = st.errors ∧
    (process_single_job en rok j (.scored data) st now).2.semantic_duplicates_found
        = st.semantic_duplicates_found ∧
    (process_single_job en rok j (.scored data) st now).1.status
        = (if data.tier.getD "low" = "high" ∧ en = true ∧ rok = true then "matched"
           else if data.score.getD 0 ≥ 85 then "matched"
           else if data.score.getD 0 ≥ 60 then "matched" else "rejected") ∧
    (process_single_job en rok j (.scored data) st now).1.decision_type
        = (if data.tier.getD "low" = "high" ∧ en = true ∧ rok = true then some "auto"
           else if data.score.getD 0 ≥ 85 then some "auto"
           else if data.score.getD 0 ≥ 60 then some "manual" else none) ∧
    (process_single_job en rok j (.scored data) st now).1.match_score
        = some ((data.score.getD 0 : ℚ) / 100) ∧
    (process_single_job en rok j (.scored data) st now).1.is_processed = true := by
  obtain ⟨hst, hdt, hms, hmr, hip⟩ :=
    update_job_with_score_fields j (data.score.getD 0)
      (data.reasoning.getD "No reasoning provided") now
  by_cases ht : data.tier.getD "low" = "high"
  · by_cases hb : en = true ∧ rok = true
    · simp [process_single_job, score_job_with_glm, ht, hb, hst, hdt, hms, hip,
        update_job_status_status, update_job_status_decision,
        update_job_status_match_score, update_job_status_is_processed]
    · simp [process_single_job, score_job_with_glm, ht, hb, hst, hdt, hms, hip]
  · by_cases hm : data.tier.getD "low" = "medium"
    · simp [process_single_job, score_job_with_glm, ht, hm, hst, hdt, hms, hip]
    · simp [process_single_job, score_job_with_glm, ht, hm, hst, hdt, hms, hip]

/-- Helper: each per-job outcome preserves the constructed-by-counting
identity `tier1 + tier2 + tier3 + semantic_duplicates_found =
total_processed` (an errored job increments neither side). -/
theorem process_single_job_stats_invariant (en rok : Bool) (j : JobRow)
    (o : JobOutcome) (st : ProcessorStats) (now : Nat)
    (h : st.tier1_high_match + st.tier2_medium_match + st.tier3_low_match
          + st.semantic_duplicates_found = st.total_processed) :
    (process_single_job en rok j o st now).2.tier1_high_match
      + (process_single_job en rok j o st now).2.tier2_medium_match
      + (process_single_job en rok j o st now).2.tier3_low_match
      + (process_single_job en rok j o st now).2.semantic_duplicates_found
      = (process_single_job en rok j o st now).2.total_processed := by
  cases o with
  | semanticDup sid =>
      dsimp [process_single_job]
      omega
  | failed =>
      dsimp [process_single_job]
      omega
  | scored data =>
      dsimp [process_single_job]
      split_ifs <;> dsimp <;> omega

/-- Helper: the counting identity holds for every run of the batch fold,
from any starting counters that satisfy it. -/
theorem process_unfiltered_jobs_stats_invariant (en rok : Bool)
    (jobs : List (JobRow × JobOutcome)) (st : ProcessorStats) (now : Nat)
    (h : st.tier1_high_match + st.tier2_medium_match + st.tier3_low_match
          + st.semantic_duplicates_found = st.total_processed) :
    (process_unfiltered_jobs en rok jobs st now).2.tier1_high_match
      + (process_unfiltered_jobs en rok jobs st now).2.tier2_medium_match
      + (process_unfiltered_jobs en rok jobs st now).2.tier3_low_match
      + (process_unfiltered_jobs en rok jobs st now).2.semantic_duplicates_found
      = (process_unfiltered_jobs en rok jobs st now).2.total_processed := by
  induction jobs generalizing st with
  | nil => simpa [process_unfiltered_jobs]
  | cons p rest ih =>
      obtain ⟨j, o⟩ := p
      dsimp only [process_unfiltered_jobs]
      exact ih _ (process_single_job_stats_invariant en rok j o st now h)

/-- C3 counterexample: a run over a single job whose processing raises (the
outcome the claim itself lists as "error") returns stats with
`tier1 + tier2 + tier3 + errors + semantic_duplicates_found = 1` but
`total_processed = 0`: the error counter is not included in
`total_processed`, so the claimed equation fails. -/
theorem stats_additivity_cex :
    ¬ ((process_unfiltered_jobs true true [(sampleNewJob, JobOutcome.failed)] stats0 3).2.tier1_high_match
        + (process_unfiltered_jobs true true [(sampleNewJob, JobOutcome.failed)] stats0 3).2.tier2_medium_match
        + (process_unfiltered_jobs true true [(sampleNewJob, JobOutcome.failed)] stats0 3).2.tier3_low_match
        + (process_unfiltered_jobs true true [(sampleNewJob, JobOutcome.failed)] stats0 3).2.errors
        + (process_unfiltered_jobs true true [(sampleNewJob, JobOutcome.failed)] stats0 3).2.semantic_duplicates_found
        = (process_unfiltered_jobs true true [(sampleNewJob, JobOutcome.failed)] stats0 3).2.total_processed) := by
  decide

/-- C3 amended: for every run, the returned stats satisfy
`tier1 + tier2 + tier3 + semantic_duplicates_found = total_processed`;
errors are counted separately and are NOT included in `total_processed`, so
the originally claimed equation (with `+ errors` on the left) holds exactly
when `errors = 0`. -/
theorem stats_additivity_amended (en rok : Bool)
    (jobs : List (JobRow × JobOutcome)) (now : Nat) :
    ((process_unfiltered_jobs en rok jobs stats0 now).2.tier1_high_match
      + (process_unfiltered_jobs en rok jobs stats0 now).2.tier2_medium_match
      + (process_unfiltered_jobs en rok jobs stats0 now).2.tier3_low_match
      + (process_unfiltered_jobs en rok jobs stats0 now).2.semantic_duplicates_found
      = (process_unfiltered_jobs en rok jobs stats0 now).2.total_processed) ∧
    ((process_unfiltered_jobs en rok jobs stats0 now).2.tier1_high_match
      + (process_unfiltered_jobs en rok jobs stats0 now).2.tier2_medium_match
      + (process_unfiltered_jobs en rok jobs stats0 now).2.tier3_low_match
      + (process_unfiltered_jobs en rok jobs stats0 now).2.errors
      + (process_unfiltered_jobs en rok jobs stats0 now).2.semantic_duplicates_found
      = (process_unfiltered_jobs en rok jobs stats0 now).2.total_processed
      ↔ (process_unfiltered_jobs en rok jobs stats0 now).2.errors = 0) := by
  have h := process_unfiltered_jobs_stats_invariant en rok jobs stats0 now (by rfl)
  exact ⟨h, by omega⟩

/-- A source record with no `url` key (otherwise valid). -/
def missingUrlRec : RawJob :=
  { title := some "Data Scientist"
    company := some "Meta"
    url := none
    description := some "Analyze user behavior."
    salary := none
    posted_date := none
    location := none
    remote_type := none
    visa_sponsorship := none
    easy_apply := none
    external_id := none }

/-- A fully valid source record following the invalid one in the same file. -/
def goodRec : RawJob :=
  { title := some "AI Engineer"
    company := some "OpenAI"
    url := some "https://x/9"
    description := some "Build AI systems."
    salary := none
    posted_date := none
    location := none
    remote_type := none
    visa_sponsorship := none
    easy_apply := none
    external_id := none }

/-- A record whose `title` key is present but empty after trimming. -/
def emptyTitleRec : RawJob :=
  { title := some ""
    company := some "Acme"
    url := some "https://x/10"
    description := some "d"
    salary := none
    posted_date := none
    location := none
    remote_type := none
    visa_sponsorship := none
    easy_apply := none
    external_id := none }

/-- C5 counterexample: importing a file whose first record lacks a url aborts
the file — the following valid record is NOT inserted (the store stays
empty) and the `ValueError` escapes; and a record whose present `title` is
the empty string is inserted as is, not rejected.  Both refute the claim
that invalid records are counted, skipped and the rest of the file still
processed. -/
theorem import_invalid_record_cex :
    (import_json_file [missingUrlRec, goodRec] [] importStats0 "linkedin" 3).1 = [] ∧
    (import_json_file [missingUrlRec, goodRec] [] importStats0 "linkedin" 3).2.2
      = some "Job URL is required" ∧
    (∃ jb ∈ (import_json_file [emptyTitleRec] [] importStats0 "linkedin" 3).1,
        jb.title = "") := by
  refine ⟨by decide, by decide, by decide⟩

/-- C5 amended: a record whose `url` key is missing or empty raises
`ValueError("Job URL is required")`, which propagates out of
`import_json_file` and aborts the remaining records of that file (the
multi-file importer absorbs it per file); there is no invalid-record
counter.  A record with a usable url is never rejected over `title` or
`company`: those fields take the sentinel values only when the key is
absent, and an empty-after-trim value is kept and imported. -/
theorem import_invalid_record_amended (r : RawJob) (rest : List RawJob)
    (db : List JobRow) (st : ImportStats) (source : String) (now : Nat)
    (hbad : r.url.getD "" = "") :
    (import_json_file (r :: rest) db st source now
        = (db, { st with total_jobs := st.total_jobs + 1 }, some "Job URL is required")) ∧
    (∀ r2 : RawJob, r2.url.getD "" ≠ "" →
        ∃ nj, normalize_job_data r2 source now = .ok nj ∧
          nj.title = r2.title.getD "Unknown Title" ∧
          nj.company = r2.company.getD "Unknown Company") := by
  constructor
  · have hp : process_job db st r source now
        = (db, { st with total_jobs := st.total_jobs + 1 }, some "Job URL is required") := by
      dsimp only [process_job, normalize_job_data]
      rw [if_pos hbad]
    dsimp only [import_json_file]
    rw [hp]
  · intro r2 h2
    exact ⟨_, by dsimp only [normalize_job_data]; rw [if_neg h2], rfl, rfl⟩

/-- Witness for the amended C5 theorem at the concrete missing-url record. -/
theorem import_invalid_record_amended_witness :
    missingUrlRec.url.getD "" = "" ∧
    import_json_file [missingUrlRec] [] importStats0 "linkedin" 3
      = ([], { importStats0 with total_jobs := 1 }, some "Job URL is required") :=
  ⟨rfl, (import_invalid_record_amended missingUrlRec [] [] importStats0 "linkedin" 3 rfl).1⟩

/-- The scenario-S3 LinkedIn record (priority 2). -/
def linkedinRawAI : RawJob :=
  { title := some "AI Engineer"
    company := some "OpenAI"
    url := some "https://li/j"
    description := some "short"
    salary := none
    posted_date := none
    location := none
    remote_type := none
    visa_sponsorship := none
    easy_apply := none
    external_id := none }

/-- The scenario-S3 Indeed record (priority 1): same company and title,
different url, longer description. -/
def indeedRawAI : RawJob :=
  { title := some "AI Engineer"
    company := some "OpenAI"
    url := some "https://in/j"
    description := some "a much longer and more detailed description"
    salary := none
    posted_date := none
    location := none
    remote_type := none
    visa_sponsorship := none
    easy_apply := none
    external_id := none }

/-- The store after importing the LinkedIn record into an empty table. -/
def c6db1 : List JobRow :=
  (import_json_file [linkedinRawAI] [] importStats0 "linkedin" 1).1

/-- The store after the Indeed record triggers the source-priority full
replacement (`_update_job`). -/
def c6db2 : List JobRow :=
  (import_json_file [indeedRawAI] c6db1 importStats0 "indeed" 2).1

/-- C6: after the scenario-S3 source-priority replacement, the surviving job
has `url = https://in/j` but `url_hash = md5("https://li/j")` —
`_update_job` rewrites `url` (and recomputes `fuzzy_hash`) without
recomputing `url_hash` — so `url_hash` is no longer the digest of the
job's current url, and re-importing a record with the job's current url is
NOT detected as a URL-exact duplicate (it falls through to the fuzzy path
and is counted as a fuzzy skip). -/
theorem url_hash_stale_after_priority_update :
    (∃ jb ∈ c6db2, jb.url = "https://in/j" ∧ jb.url_hash = md5Hex "https://li/j"
        ∧ jb.url_hash ≠ md5Hex jb.url) ∧
    get_job_by_url_hash c6db2 (md5Hex "https://in/j") = none ∧
    (import_json_file [indeedRawAI] c6db2 importStats0 "indeed" 3).2.1.url_duplicates = 0 ∧
    (import_json_file [indeedRawAI] c6db2 importStats0 "indeed" 3).2.1.fuzzy_duplicates_skipped
      = 1 := by
  refine ⟨by decide, by decide, by decide, by decide⟩

/-- The scenario-S4 Glassdoor record (priority 2, short description). -/
def glassdoorStripe : RawJob :=
  { title := some "Senior Backend Engineer"
    company := some "Stripe"
    url := some "https://gd/1"
    description := some "Short"
    salary := none
    posted_date := none
    location := none
    remote_type := none
    visa_sponsorship := none
    easy_apply := none
    external_id := none }

/-- A same-priority LinkedIn record for the same company and title whose raw
description is strictly longer. -/
def linkedinStripe : RawJob :=
  { title := some "Senior Backend Engineer"
    company := some "Stripe"
    url := some "https://li/2"
    description := some "a much longer and far more detailed description of the role"
    salary := none
    posted_date := none
    location := none
    remote_type := none
    visa_sponsorship := none
    easy_apply := none
    external_id := none }

/-- The store after importing the Glassdoor record into an empty table. -/
def c7db1 : List JobRow :=
  (import_json_file [glassdoorStripe] [] importStats0 "glassdoor" 1).1

/-- C7: an equal-priority fuzzy collision with a strictly longer new
description is SKIPPED by the pipeline — the stored description stays
`"Short"` and the record counts as a fuzzy skip — because `_process_job`
hands `resolve_duplicate` the normalized dict, which stores the text under
`jd_raw`/`jd_markdown` and has no `description` key, so
`new_job.get('description', '')` is always the empty string.  Fed the raw
record shape that the repository's own unit test uses (a dict WITH a
`description` key), `resolve_duplicate` on the stored row does return
`update_description`, pinning the divergence to the caller's key mismatch. -/
theorem equal_priority_description_never_updated :
    (import_json_file [linkedinStripe] c7db1 importStats0 "linkedin" 2).1 = c7db1 ∧
    (import_json_file [linkedinStripe] c7db1 importStats0 "linkedin" 2).2.1.fuzzy_duplicates_skipped
      = 1 ∧
    (import_json_file [linkedinStripe] c7db1 importStats0 "linkedin" 2).2.1.fuzzy_duplicates_updated
      = 0 ∧
    (∃ jb ∈ c7db1, jb.jd_raw = some "Short") ∧
    (∀ jb ∈ c7db1, resolve_duplicate jb 2
        (some "a much longer and far more detailed description of the role")
      = DupAction.update_description
          "a much longer and far more detailed description of the role") := by
  refine ⟨by decide, by decide, by decide, by decide, by decide⟩

end JobHunter
